import Mathlib

/-!
Verification development for the ice-routing service (`src/app/main.py`).

The service plans a single-vehicle delivery route with OR-Tools.  We embed the
parts of `build_route` that decide the claims:

* `travel_time` and `distance` — the geometry helpers (Python floats are
  modelled as real numbers; Python's `int(x)` truncates towards zero, which for
  the non-negative values produced here coincides with the floor).
* `splitOrder` / `cargoSplit` — the in-place "разделение льда" (ice split)
  block of `build_route`: the warehouse's `raw_ice_kg` / `container_ice_kg`
  fields are overwritten with the class sums, and every order's fields are
  overwritten with the negated delta for its class.
* The constraint model built by `build_route`.  All three dimensions are added
  with `slack_max = 0` and the start cumul pinned to `0` (the Time dimension
  via an explicit `SetValue(0)`, the RawLoad dimension via
  `fix_start_cumul_to_zero=True`), so along a fixed visiting order the cumul
  values are fully determined; `feasible` states that every cumul respects its
  dimension's `[0, capacity]` bound and every order node its `SetRange` window.
  The third dimension, `RawIceTime`, is NOT part of `feasible`: its transit
  callback `raw_ice_time_callback` reads the local variable `solution`, which
  is assigned only after `SolveWithParameters` returns, so every evaluation of
  it during the solve raises `NameError`; it is modelled separately by
  `raw_ice_time_callback` below, with the unbound/bound state of `solution`
  made explicit and the `NameError` outcome modelled as `none`.
* `routeEntries` / `buildRouteResponse` — the result-assembly loop and the
  `{"error": "Route not found"}` branch.
-/

namespace IceRouting

/-- Model of the pydantic `Point` (floats as reals, ints as integers).
In the source `raw_ice_kg` and `container_ice_kg` default to `0`. -/
structure Point where
  name : String
  lat : ℝ
  lon : ℝ
  time_start : ℤ
  time_end : ℤ
  ice_kg : ℤ
  raw_ice_kg : ℤ
  container_ice_kg : ℤ

def defaultPoint : Point := ⟨"", 0, 0, 0, 0, 0, 0, 0⟩

instance : Inhabited Point := ⟨defaultPoint⟩

/-- Model of `RouteRequest`: one warehouse plus the order list. -/
structure RouteRequest where
  warehouse : Point
  orders : List Point

/-- `travel_time(p1, p2)`: straight-line length of the coordinate difference,
multiplied by `100` to obtain `dist_km`, divided by the assumed speed
`30` km/h and converted to minutes; Python's `int(...)` truncation is the
floor of this non-negative value. -/
noncomputable def travel_time (p1 p2 : Point) : ℤ :=
  ⌊Real.sqrt ((p1.lat - p2.lat) ^ 2 + (p1.lon - p2.lon) ^ 2) * 100 / 30 * 60⌋

/-- `distance(p1, p2)`: the straight-line distance used for the arc cost. -/
noncomputable def distance (p1 p2 : Point) : ℝ :=
  Real.sqrt ((p1.lat - p2.lat) ^ 2 + (p1.lon - p2.lon) ^ 2)

/-- `MAX_TOTAL_KG = 270`. -/
def MAX_TOTAL_KG : ℤ := 270

/-- `RAW_ICE_TIME_LIMIT = 50` minutes. -/
def RAW_ICE_TIME_LIMIT : ℤ := 50

/-- Time-dimension capacity: `AddDimension(time_cb, 0, 1440, False, "Time")`. -/
def TIME_CAPACITY : ℤ := 1440

/-- The per-order part of the ice split (`# 2 заказы ВЫГРУЖАЮТ лёд`):
an order with `ice_kg >= 100` gets `raw_ice_kg = -ice_kg, container_ice_kg = 0`,
otherwise `raw_ice_kg = 0, container_ice_kg = -ice_kg`. -/
def splitOrder (o : Point) : Point :=
  if 100 ≤ o.ice_kg then
    { o with raw_ice_kg := -o.ice_kg, container_ice_kg := 0 }
  else
    { o with raw_ice_kg := 0, container_ice_kg := -o.ice_kg }

/-- The whole in-place ice split of `build_route`: the warehouse's
`raw_ice_kg` becomes the sum of `ice_kg` over the orders with
`ice_kg >= 100`, its `container_ice_kg` the sum over the orders with
`ice_kg < 100`, and every order is rewritten by `splitOrder`.
Since the Python code mutates the received objects, this function returns the
state of the request after the mutation. -/
def cargoSplit (req : RouteRequest) : RouteRequest :=
  { warehouse :=
      { req.warehouse with
        raw_ice_kg := ((req.orders.filter fun o => 100 ≤ o.ice_kg).map
          (fun o => o.ice_kg)).sum
        container_ice_kg := ((req.orders.filter fun o => o.ice_kg < 100).map
          (fun o => o.ice_kg)).sum }
    orders := req.orders.map splitOrder }

/-- The upper end of the `SetRange` window installed for an order node:
`end` is clamped by `min(end, RAW_ICE_TIME_LIMIT)` when `ice_kg >= 100`. -/
def tightenedEnd (p : Point) : ℤ :=
  if 100 ≤ p.ice_kg then min p.time_end RAW_ICE_TIME_LIMIT else p.time_end

/-- Cumulative values of a dimension whose transit is attached to the
*from node* (a unary transit callback, as for RawLoad): the value recorded at
each node is the accumulator before that node's own transit is applied. -/
def nodeCumuls (f : Point → ℤ) (t : ℤ) : List Point → List ℤ
  | [] => []
  | p :: rest => t :: nodeCumuls f (t + f p) rest

/-- Cumulative values of a dimension whose transit is attached to the arc
(a binary transit callback, as for Time): given the previous stop and the
cumul there, the value at each listed stop in order. -/
def arcCumuls (f : Point → Point → ℤ) (prev : Point) (t : ℤ) :
    List Point → List ℤ
  | [] => []
  | p :: rest => (t + f prev p) :: arcCumuls f p (t + f prev p) rest

/-- Time cumuls along the closed path `warehouse :: perm ++ [warehouse]`.
The start cumul is pinned to `0` by `SetValue(0)` and the Time dimension has
`slack_max = 0`, so every later cumul is the running sum of `travel_time`. -/
noncomputable def timeCumuls (w : Point) (perm : List Point) : List ℤ :=
  0 :: arcCumuls travel_time w 0 (perm ++ [w])

/-- Arrival times at the order stops only (the non-final positions). -/
noncomputable def orderArrivals (w : Point) (perm : List Point) : List ℤ :=
  arcCumuls travel_time w 0 perm

/-- RawLoad cumuls along the closed path: `fix_start_cumul_to_zero=True`,
`slack_max = 0`, unary transit `points[node].raw_ice_kg`. -/
def loadCumuls (w : Point) (perm : List Point) : List ℤ :=
  nodeCumuls (fun p => p.raw_ice_kg) 0 (w :: perm ++ [w])

/-- The `SetRange(start, end)` window checks installed for the order nodes
(the loop skips `i == 0`, so the depot gets no window), threaded along the
deterministic (zero-slack) time cumuls. -/
def windowsOK (prev : Point) (t : ℤ) : List Point → Prop
  | [] => True
  | p :: rest =>
      (p.time_start ≤ t + travel_time prev p ∧
        t + travel_time prev p ≤ tightenedEnd p) ∧
      windowsOK p (t + travel_time prev p) rest

/-- Feasibility of a visiting order `perm` for the model `build_route`
constructs (after the in-place ice split): `perm` visits exactly the orders,
every Time cumul lies in `[0, 1440]`, every order node satisfies its
(possibly decay-clamped) `SetRange` window, and every RawLoad cumul lies in
`[0, MAX_TOTAL_KG]`.  The RawIceTime dimension is absent: its transit
callback faults (see `raw_ice_time_callback`), so it never contributes a
well-defined constraint; all bounds here are the ones the remaining
dimensions impose, and any feasibility asserted of the full program is at
most what `feasible` permits. -/
def feasible (req : RouteRequest) (perm : List Point) : Prop :=
  perm.Perm (cargoSplit req).orders ∧
  (∀ t ∈ timeCumuls (cargoSplit req).warehouse perm, 0 ≤ t ∧ t ≤ TIME_CAPACITY) ∧
  windowsOK (cargoSplit req).warehouse 0 perm ∧
  (∀ x ∈ loadCumuls (cargoSplit req).warehouse perm, 0 ≤ x ∧ x ≤ MAX_TOTAL_KG)

/-- Model of `raw_ice_time_callback`.  The Python closure reads the free
variable `solution`, which is assigned only after `SolveWithParameters`
returns; while it is unbound (i.e. during the whole solve, which is when the
callback is evaluated) the call raises `NameError`, modelled as `none`.
When a binding exists, `raw_load` is the RawLoad cumul at `from_index` under
that binding and the callback returns the travel time if `raw_load > 0`,
else `0`. -/
noncomputable def raw_ice_time_callback (solutionBinding : Option (ℕ → ℤ))
    (points : List Point) (from_index to_index : ℕ) : Option ℤ :=
  match solutionBinding with
  | none => none
  | some rawLoadCumul =>
      if 0 < rawLoadCumul from_index then
        some (travel_time (points.getD from_index defaultPoint)
          (points.getD to_index defaultPoint))
      else
        some 0

/-- One entry of the reported route: the source appends
`{"point": name, "arrival_minute": arrival}` per visited stop. -/
structure RouteEntry where
  point : String
  arrival_minute : ℤ
deriving DecidableEq

/-- The two response shapes of `build_route`: `{"route": [...]}` or
`{"error": "Route not found"}`. -/
inductive BuildRouteResponse where
  | route (entries : List RouteEntry)
  | error (msg : String)
deriving DecidableEq

/-- The result-assembly loop: one entry per non-end position (depot start and
each order, paired with its Time cumul), then the explicit warehouse-return
entry with the end cumul. -/
noncomputable def routeEntries (w : Point) (perm : List Point) :
    List RouteEntry :=
  (((w :: perm).zip (timeCumuls w perm)).map fun pr =>
    ⟨pr.1.name, pr.2⟩) ++ [⟨w.name, (timeCumuls w perm).getLastD 0⟩]

/-- The tail of `build_route` after `SolveWithParameters`: if the solver
found no assignment the response is the constant
`{"error": "Route not found"}`; otherwise the assembled entry list for the
returned visiting order. -/
noncomputable def buildRouteResponse (req : RouteRequest)
    (found : Option (List Point)) : BuildRouteResponse :=
  match found with
  | none => .error "Route not found"
  | some perm => .route (routeEntries (cargoSplit req).warehouse perm)

/-- Replace only the depot's delivery-window fields (used to state that the
model imposes no window on the depot). -/
def withDepotWindow (req : RouteRequest) (a b : ℤ) : RouteRequest :=
  { warehouse := { req.warehouse with time_start := a, time_end := b }
    orders := req.orders }

/-! ### Concrete instances (the spec's scenarios, in coordinate units)

The geometry multiplies the coordinate-space distance by `100` to get
kilometres, so a stop `1/100` coordinate units from the depot is 1 km away
and two minutes of travel; a stop `1/40` units away is 2.5 km and five
minutes of travel. -/

/-- The depot used by the concrete scenarios. -/
def base : Point := ⟨"base", 0, 0, 0, 1440, 0, 0, 0⟩

/-- Scenario A order: raw (150 kg), window `[0, 120]`, 1 km from the depot. -/
noncomputable def oA : Point := ⟨"a1", 1 / 100, 0, 0, 120, 150, 0, 0⟩

noncomputable def scenA : RouteRequest := ⟨base, [oA]⟩

/-- Scenario A order after the in-place ice split. -/
noncomputable def oA' : Point := ⟨"a1", 1 / 100, 0, 0, 120, 150, -150, 0⟩

/-- Scenario A warehouse after the in-place ice split. -/
def wA' : Point := ⟨"base", 0, 0, 0, 1440, 0, 150, 0⟩

/-- Scenario B order: containerized (20 kg), window `[60, 70]`, five minutes
of travel from the depot. -/
noncomputable def oB : Point := ⟨"b1", 1 / 40, 0, 60, 70, 20, 0, 0⟩

noncomputable def scenB : RouteRequest := ⟨base, [oB]⟩

noncomputable def oB' : Point := ⟨"b1", 1 / 40, 0, 60, 70, 20, 0, -20⟩

def wB' : Point := ⟨"base", 0, 0, 0, 1440, 0, 0, 20⟩

/-- Scenario C order: raw (150 kg) with window `[60, 90]`, so the tightened
window `[60, 50]` is empty. -/
noncomputable def oC : Point := ⟨"c1", 1 / 100, 0, 60, 90, 150, 0, 0⟩

noncomputable def scenC : RouteRequest := ⟨base, [oC]⟩

noncomputable def oC' : Point := ⟨"c1", 1 / 100, 0, 60, 90, 150, -150, 0⟩

/-- Scenario D orders: two raw orders of 200 kg each (combined 400 > 270). -/
def oD1 : Point := ⟨"d1", 0, 0, 0, 1440, 200, 0, 0⟩

def oD2 : Point := ⟨"d2", 0, 0, 0, 1440, 200, 0, 0⟩

noncomputable def scenD : RouteRequest := ⟨base, [oD1, oD2]⟩

/-- A single containerized order of 20 kg (total cargo 20). -/
def oE : Point := ⟨"e1", 0, 0, 0, 1440, 20, 0, 0⟩

noncomputable def scenE : RouteRequest := ⟨base, [oE]⟩

/-- Two stops exactly one coordinate unit apart (the unit the cost
objective's `distance` reports). -/
def pX : Point := ⟨"x", 0, 0, 0, 0, 0, 0, 0⟩

def pY : Point := ⟨"y", 1, 0, 0, 0, 0, 0, 0⟩

/-! ### Geometry lemmas -/

lemma travel_time_eq_floor (p1 p2 : Point) (d : ℝ) (h0 : 0 ≤ d)
    (h : (p1.lat - p2.lat) ^ 2 + (p1.lon - p2.lon) ^ 2 = d ^ 2) :
    travel_time p1 p2 = ⌊d * 200⌋ := by
  unfold travel_time
  rw [h, Real.sqrt_sq h0]
  congr 1
  ring

lemma travel_time_distance (p1 p2 : Point) :
    travel_time p1 p2 = ⌊distance p1 p2 * 200⌋ := by
  unfold travel_time distance
  congr 1
  ring

lemma floor_ofInt_mul (d : ℝ) (n : ℤ) (h : d * 200 = (n : ℝ)) :
    ⌊d * 200⌋ = n := by
  rw [h, Int.floor_intCast]

lemma travel_wA'_oA' : travel_time wA' oA' = 2 := by
  rw [travel_time_eq_floor wA' oA' (1 / 100) (by norm_num)
    (by simp only [wA', oA']; norm_num)]
  exact floor_ofInt_mul _ 2 (by norm_num)

lemma travel_oA'_wA' : travel_time oA' wA' = 2 := by
  rw [travel_time_eq_floor oA' wA' (1 / 100) (by norm_num)
    (by simp only [wA', oA']; norm_num)]
  exact floor_ofInt_mul _ 2 (by norm_num)

lemma travel_wB'_oB' : travel_time wB' oB' = 5 := by
  rw [travel_time_eq_floor wB' oB' (1 / 40) (by norm_num)
    (by simp only [wB', oB']; norm_num)]
  exact floor_ofInt_mul _ 5 (by norm_num)

lemma travel_pX_pY : travel_time pX pY = 200 := by
  rw [travel_time_eq_floor pX pY 1 (by norm_num)
    (by simp only [pX, pY]; norm_num)]
  exact floor_ofInt_mul _ 200 (by norm_num)

lemma distance_pX_pY : distance pX pY = 1 := by
  unfold distance
  simp only [pX, pY]
  norm_num

/-! ### The ice split on the concrete instances -/

lemma cargoSplit_scenA : cargoSplit scenA = ⟨wA', [oA']⟩ := by
  simp [cargoSplit, splitOrder, scenA, base, oA, wA', oA']

lemma cargoSplit_scenB : cargoSplit scenB = ⟨wB', [oB']⟩ := by
  simp [cargoSplit, splitOrder, scenB, base, oB, wB', oB']

lemma cargoSplit_scenC : cargoSplit scenC = ⟨⟨"base", 0, 0, 0, 1440, 0, 150, 0⟩, [oC']⟩ := by
  simp [cargoSplit, splitOrder, scenC, base, oC, oC']

/-! ### Structural lemmas about the dimension cumuls -/

lemma windowsOK_zip :
    ∀ (l : List Point) (prev : Point) (t : ℤ), windowsOK prev t l →
      ∀ pr ∈ l.zip (arcCumuls travel_time prev t l),
        pr.1.time_start ≤ pr.2 ∧ pr.2 ≤ tightenedEnd pr.1 := by
  intro l
  induction l with
  | nil => intro prev t _ pr hpr; simp [arcCumuls] at hpr
  | cons p rest ih =>
      intro prev t h pr hpr
      obtain ⟨h1, h2⟩ := h
      rw [arcCumuls, List.zip_cons_cons, List.mem_cons] at hpr
      rcases hpr with heq | hmem
      · rw [heq]; exact h1
      · exact ih p _ h2 pr hmem

lemma windowsOK_mem :
    ∀ (l : List Point) (prev : Point) (t : ℤ), windowsOK prev t l →
      ∀ p ∈ l, p.time_start ≤ tightenedEnd p := by
  intro l
  induction l with
  | nil => intro _ _ _ p hp; simp at hp
  | cons q rest ih =>
      intro prev t h p hp
      obtain ⟨⟨hs, he⟩, h2⟩ := h
      rcases List.mem_cons.mp hp with heq | hmem
      · rw [heq]; exact le_trans hs he
      · exact ih q _ h2 p hmem

lemma nodeCumuls_head_mem (f : Point → ℤ) (t : ℤ) :
    ∀ l : List Point, l ≠ [] → t ∈ nodeCumuls f t l := by
  intro l hl
  cases l with
  | nil => exact absurd rfl hl
  | cons p rest => rw [nodeCumuls]; exact List.mem_cons_self _ _

/-- The RawLoad cumul at the first stop after the depot is the warehouse's
post-split `raw_ice_kg`, whatever the visiting order. -/
lemma loadCumuls_second_mem (w : Point) (perm : List Point) :
    (0 + w.raw_ice_kg) ∈ loadCumuls w perm := by
  unfold loadCumuls
  rw [List.cons_append, nodeCumuls]
  exact List.mem_cons_of_mem _
    (nodeCumuls_head_mem _ _ _ (by simp))

lemma arcCumuls_length (f : Point → Point → ℤ) :
    ∀ (l : List Point) (prev : Point) (t : ℤ), (arcCumuls f prev t l).length = l.length := by
  intro l
  induction l with
  | nil => intro prev t; rfl
  | cons p rest ih => intro prev t; rw [arcCumuls]; simp [ih]

/-! ### The model never reads the depot's delivery window -/

lemma travel_time_congr (p q p' q' : Point) (h1 : p.lat = p'.lat)
    (h2 : p.lon = p'.lon) (h3 : q.lat = q'.lat) (h4 : q.lon = q'.lon) :
    travel_time p q = travel_time p' q' := by
  unfold travel_time
  rw [h1, h2, h3, h4]

lemma arcCumuls_congr_prev :
    ∀ (l : List Point) (w w' : Point) (t : ℤ), w.lat = w'.lat → w.lon = w'.lon →
      arcCumuls travel_time w t l = arcCumuls travel_time w' t l := by
  intro l
  induction l with
  | nil => intro w w' t _ _; rfl
  | cons p rest _ =>
      intro w w' t h1 h2
      rw [arcCumuls, arcCumuls, travel_time_congr w p w' p h1 h2 rfl rfl]

lemma arcCumuls_congr_last :
    ∀ (l : List Point) (prev : Point) (t : ℤ) (w w' : Point),
      w.lat = w'.lat → w.lon = w'.lon →
      arcCumuls travel_time prev t (l ++ [w]) = arcCumuls travel_time prev t (l ++ [w']) := by
  intro l
  induction l with
  | nil =>
      intro prev t w w' h1 h2
      simp only [List.nil_append, arcCumuls]
      rw [travel_time_congr prev w prev w' rfl rfl h1 h2]
  | cons p rest ih =>
      intro prev t w w' h1 h2
      simp only [List.cons_append, arcCumuls, List.append_eq]
      rw [ih p _ w w' h1 h2]

lemma windowsOK_congr_prev :
    ∀ (l : List Point) (w w' : Point) (t : ℤ), w.lat = w'.lat → w.lon = w'.lon →
      (windowsOK w t l ↔ windowsOK w' t l) := by
  intro l
  induction l with
  | nil => intro w w' t _ _; rfl
  | cons p rest _ =>
      intro w w' t h1 h2
      rw [windowsOK, windowsOK, travel_time_congr w p w' p h1 h2 rfl rfl]

lemma nodeCumuls_congr_last (f : Point → ℤ) :
    ∀ (l : List Point) (t : ℤ) (w w' : Point),
      nodeCumuls f t (l ++ [w]) = nodeCumuls f t (l ++ [w']) := by
  intro l
  induction l with
  | nil => intro t w w'; simp [nodeCumuls]
  | cons p rest ih =>
      intro t w w'
      simp only [List.cons_append, nodeCumuls, List.append_eq]
      rw [ih]

/-- Changing only the depot's `time_start` / `time_end` leaves the whole
constraint model unchanged: the window loop skips `i == 0`. -/
lemma feasible_withDepotWindow (req : RouteRequest) (perm : List Point)
    (a b : ℤ) : feasible (withDepotWindow req a b) perm ↔ feasible req perm := by
  have hw : (cargoSplit (withDepotWindow req a b)).warehouse =
      { (cargoSplit req).warehouse with time_start := a, time_end := b } := rfl
  have ho : (cargoSplit (withDepotWindow req a b)).orders = (cargoSplit req).orders := rfl
  unfold feasible
  rw [hw, ho]
  have hlat : ({ (cargoSplit req).warehouse with time_start := a, time_end := b } : Point).lat =
      ((cargoSplit req).warehouse).lat := rfl
  have hlon : ({ (cargoSplit req).warehouse with time_start := a, time_end := b } : Point).lon =
      ((cargoSplit req).warehouse).lon := rfl
  have hraw : ({ (cargoSplit req).warehouse with time_start := a, time_end := b } : Point).raw_ice_kg =
      ((cargoSplit req).warehouse).raw_ice_kg := rfl
  have htime : timeCumuls { (cargoSplit req).warehouse with time_start := a, time_end := b } perm =
      timeCumuls (cargoSplit req).warehouse perm := by
    unfold timeCumuls
    rw [arcCumuls_congr_prev _ _ _ _ hlat hlon,
      arcCumuls_congr_last _ _ _ _ ((cargoSplit req).warehouse) hlat hlon]
  have hload : loadCumuls { (cargoSplit req).warehouse with time_start := a, time_end := b } perm =
      loadCumuls (cargoSplit req).warehouse perm := by
    unfold loadCumuls
    rw [List.cons_append, List.cons_append, nodeCumuls, nodeCumuls, hraw,
      nodeCumuls_congr_last _ _ _ _ ((cargoSplit req).warehouse)]
  rw [htime, hload, windowsOK_congr_prev perm _ _ 0 hlat hlon]

/-! ### Concrete evaluations -/

lemma split_scenA_warehouse : (cargoSplit scenA).warehouse = wA' := by
  rw [cargoSplit_scenA]

lemma split_scenA_orders : (cargoSplit scenA).orders = [oA'] := by
  rw [cargoSplit_scenA]

lemma split_scenB_warehouse : (cargoSplit scenB).warehouse = wB' := by
  rw [cargoSplit_scenB]

lemma split_scenB_orders : (cargoSplit scenB).orders = [oB'] := by
  rw [cargoSplit_scenB]

lemma split_scenC_orders : (cargoSplit scenC).orders = [oC'] := by
  rw [cargoSplit_scenC]

lemma timeCumuls_scenA : timeCumuls wA' [oA'] = [0, 2, 4] := by
  unfold timeCumuls
  norm_num [arcCumuls, travel_wA'_oA', travel_oA'_wA']

lemma loadCumuls_scenA : loadCumuls wA' [oA'] = [0, 150, 0] := by
  norm_num [loadCumuls, nodeCumuls, wA', oA']

lemma arrivals_scenA : orderArrivals (cargoSplit scenA).warehouse [oA'] = [2] := by
  rw [split_scenA_warehouse]
  norm_num [orderArrivals, arcCumuls, travel_wA'_oA']

/-- Scenario A is feasible for the model's Time, window and RawLoad
constraints, with arrival two minutes after departure. -/
lemma scenA_feasible : feasible scenA [oA'] := by
  unfold feasible
  rw [split_scenA_warehouse, split_scenA_orders, timeCumuls_scenA, loadCumuls_scenA]
  refine ⟨List.Perm.refl _, ?_, ?_, ?_⟩
  · intro t ht
    rcases List.mem_cons.mp ht with h | ht
    · norm_num [h, TIME_CAPACITY]
    rcases List.mem_cons.mp ht with h | ht
    · norm_num [h, TIME_CAPACITY]
    rcases List.mem_cons.mp ht with h | ht
    · norm_num [h, TIME_CAPACITY]
    · simp at ht
  · rw [windowsOK, travel_wA'_oA']
    refine ⟨⟨?_, ?_⟩, trivial⟩
    · norm_num [oA']
    · norm_num [oA', tightenedEnd, RAW_ICE_TIME_LIMIT]
  · intro x hx
    rcases List.mem_cons.mp hx with h | hx
    · norm_num [h, MAX_TOTAL_KG]
    rcases List.mem_cons.mp hx with h | hx
    · norm_num [h, MAX_TOTAL_KG]
    rcases List.mem_cons.mp hx with h | hx
    · norm_num [h, MAX_TOTAL_KG]
    · simp at hx

/-- Scenario B is infeasible: with `slack_max = 0` on the Time dimension the
vehicle cannot wait, the order is reached at minute 5, and its window
`[60, 70]` then fails. -/
lemma scenB_infeasible_aux : ∀ perm, ¬ feasible scenB perm := by
  intro perm h
  obtain ⟨hperm, -, hwin, -⟩ := h
  rw [split_scenB_orders] at hperm
  rw [split_scenB_warehouse] at hwin
  have he : perm = [oB'] := List.perm_singleton.mp hperm
  subst he
  rw [windowsOK, travel_wB'_oB'] at hwin
  obtain ⟨⟨hs, -⟩, -⟩ := hwin
  norm_num [oB'] at hs

/-- Any instance containing an order whose tightened window is empty has no
feasible visiting order: the order must be visited and its `SetRange` is
unsatisfiable. -/
lemma infeasible_of_empty_window (req : RouteRequest) (p : Point)
    (perm : List Point) (hmem : p ∈ (cargoSplit req).orders)
    (hempty : tightenedEnd p < p.time_start) : ¬ feasible req perm := by
  intro h
  have hp : p ∈ perm := (h.1.mem_iff).mpr hmem
  have hle := windowsOK_mem perm _ 0 h.2.2.1 p hp
  exact absurd hle (not_le.mpr hempty)

lemma oC'_mem : oC' ∈ (cargoSplit scenC).orders := by
  rw [split_scenC_orders]
  exact List.mem_singleton.mpr rfl

lemma oC'_empty_window : tightenedEnd oC' < oC'.time_start := by
  norm_num [tightenedEnd, oC', RAW_ICE_TIME_LIMIT]

/-- Scenario D's combined raw load (400 kg) exceeds the RawLoad capacity 270
at the first stop after the depot, whatever the visiting order. -/
lemma scenD_infeasible_aux : ∀ perm, ¬ feasible scenD perm := by
  intro perm h
  have h400 : (cargoSplit scenD).warehouse.raw_ice_kg = 400 := by
    norm_num [cargoSplit, scenD, oD1, oD2, base]
  have hmem := loadCumuls_second_mem (cargoSplit scenD).warehouse perm
  have hb := h.2.2.2 _ hmem
  rw [h400] at hb
  norm_num [MAX_TOTAL_KG] at hb

/-! ### Claim theorems -/

/-- C1 (code behaviour at the failing input): `raw_ice_time_callback` has the
claimed functional form only relative to a binding of `solution`, which does
not exist during the feasibility pass — every evaluation with `solution`
unbound yields the `NameError` outcome `none` instead of a transit value. -/
theorem decay_transit_callback (f : ℕ → ℤ) (points : List Point) (i j : ℕ) :
    (0 < f i → raw_ice_time_callback (some f) points i j =
      some (travel_time (points.getD i defaultPoint) (points.getD j defaultPoint))) ∧
    (f i ≤ 0 → raw_ice_time_callback (some f) points i j = some 0) ∧
    raw_ice_time_callback none points i j = none := by
  refine ⟨fun h => ?_, fun h => ?_, rfl⟩
  · rw [raw_ice_time_callback]
    exact if_pos h
  · rw [raw_ice_time_callback]
    exact if_neg (not_lt.mpr h)

/-- C1 witness: with a positive raw load bound in, the callback returns the
arc's travel time; the unbound case returns `none`. -/
theorem decay_transit_callback_witness :
    (0 < (150 : ℤ) ∧
      raw_ice_time_callback (some fun _ => (150 : ℤ)) [wA', oA'] 0 1 =
        some (travel_time ([wA', oA'].getD 0 defaultPoint)
          ([wA', oA'].getD 1 defaultPoint))) ∧
    raw_ice_time_callback none [wA', oA'] 0 1 = none :=
  ⟨⟨by norm_num,
    (decay_transit_callback (fun _ => (150 : ℤ)) [wA', oA'] 0 1).1 (by norm_num)⟩,
   rfl⟩

/-- C2 counterexample: for a single containerized order of 20 kg the claimed
"Load starts at the depot equal to the sum of all cargo, raw plus
containerized" fails — the only load dimension tracks raw ice only, the
warehouse's raw figure is 0, and every cumul along the route is 0, not 20. -/
theorem load_counts_raw_only_cex :
    (scenE.orders.map (fun o => o.ice_kg)).sum = 20 ∧
    (cargoSplit scenE).warehouse.raw_ice_kg = 0 ∧
    loadCumuls (cargoSplit scenE).warehouse (cargoSplit scenE).orders = [0, 0, 0] ∧
    (0 : ℤ) ≠ 20 := by
  refine ⟨by norm_num [scenE, oE], by norm_num [cargoSplit, scenE, oE], ?_, by norm_num⟩
  norm_num [loadCumuls, nodeCumuls, cargoSplit, splitOrder, scenE, oE, base]

/-- C2 (amended): the load dimension carries only raw-class cargo (the sum of
`ice_kg` over orders with `ice_kg >= 100`, loaded at the depot), bounded in
`[0, 270]` by `feasible`; for two raw orders of 200 kg each the model is
infeasible and the code answers with the generic error, naming no dimension. -/
theorem load_raw_only_overload_infeasible :
    (∀ req : RouteRequest, (cargoSplit req).warehouse.raw_ice_kg =
      ((req.orders.filter fun o => 100 ≤ o.ice_kg).map (fun o => o.ice_kg)).sum) ∧
    (cargoSplit scenD).warehouse.raw_ice_kg = 400 ∧
    (∀ perm, ¬ feasible scenD perm) ∧
    buildRouteResponse scenD none = BuildRouteResponse.error "Route not found" :=
  ⟨fun _ => rfl, by norm_num [cargoSplit, scenD, oD1, oD2, base],
   scenD_infeasible_aux, rfl⟩

/-- C3: in every feasible solution every order stop's arrival time lies in its
delivery window, and for raw-class stops (`ice_kg >= 100`) also below
`min(time_end, 50)`; the depot is subject to no delivery-window range —
replacing the depot's window fields leaves feasibility unchanged. -/
theorem arrivals_within_windows (req : RouteRequest) (perm : List Point)
    (h : feasible req perm) :
    (∀ pr ∈ perm.zip (orderArrivals (cargoSplit req).warehouse perm),
      pr.1.time_start ≤ pr.2 ∧ pr.2 ≤ pr.1.time_end ∧
        (100 ≤ pr.1.ice_kg → pr.2 ≤ min pr.1.time_end RAW_ICE_TIME_LIMIT)) ∧
    (∀ a b, feasible (withDepotWindow req a b) perm ↔ feasible req perm) := by
  constructor
  · intro pr hpr
    rw [orderArrivals] at hpr
    obtain ⟨h1, h2⟩ := windowsOK_zip perm _ 0 h.2.2.1 pr hpr
    have hle : tightenedEnd pr.1 ≤ pr.1.time_end := by
      unfold tightenedEnd
      split
      · exact min_le_left _ _
      · exact le_refl _
    refine ⟨h1, le_trans h2 hle, fun hraw => ?_⟩
    have ht : tightenedEnd pr.1 = min pr.1.time_end RAW_ICE_TIME_LIMIT := by
      unfold tightenedEnd
      rw [if_pos hraw]
    rw [← ht]
    exact h2
  · intro a b
    exact feasible_withDepotWindow req perm a b

/-- C3 witness: scenario A (raw order, window `[0, 120]`, two minutes away) is
feasible and its one order arrives at minute 2, inside `[0, min 120 50]`. -/
theorem arrivals_within_windows_witness :
    feasible scenA [oA'] ∧
    (∀ pr ∈ [oA'].zip (orderArrivals (cargoSplit scenA).warehouse [oA']),
      pr.1.time_start ≤ pr.2 ∧ pr.2 ≤ pr.1.time_end ∧
        (100 ≤ pr.1.ice_kg → pr.2 ≤ min pr.1.time_end RAW_ICE_TIME_LIMIT)) :=
  ⟨scenA_feasible, (arrivals_within_windows scenA [oA'] scenA_feasible).1⟩

/-- C4 (code behaviour at the failing input): the Time dimension is created
with `slack_max = 0`, so the vehicle cannot wait; scenario B's order is
reached at minute 5, its window `[60, 70]` is unsatisfiable, the model has no
feasible visiting order, and the response is the generic error — not a
feasible solution arriving at minute 60. -/
theorem scenarioB_no_waiting :
    travel_time wB' oB' = 5 ∧
    (∀ perm, ¬ feasible scenB perm) ∧
    buildRouteResponse scenB none = BuildRouteResponse.error "Route not found" :=
  ⟨travel_wB'_oB', scenB_infeasible_aux, rfl⟩

/-- C5 counterexample: scenario C's raw order (window `[60, 90]`) has the
empty tightened window `[60, 50]`; the model is infeasible, but the code's
outcome is the constant post-search `{"error": "Route not found"}` — there is
no pre-search structural check and the report names no stop. -/
theorem emptyWindow_generic_error_cex :
    tightenedEnd oC' = 50 ∧ oC'.time_start = 60 ∧
    (∀ perm, ¬ feasible scenC perm) ∧
    buildRouteResponse scenC none = BuildRouteResponse.error "Route not found" :=
  ⟨by norm_num [tightenedEnd, oC', RAW_ICE_TIME_LIMIT], by norm_num [oC'],
   fun perm => infeasible_of_empty_window scenC oC' perm oC'_mem oC'_empty_window,
   rfl⟩

/-- C5 (amended): an instance with an order whose tightened window is empty
admits no feasible visiting order, and the code's only infeasibility response
is the constant generic error. -/
theorem emptyWindow_infeasible (req : RouteRequest) (p : Point)
    (perm : List Point) (hmem : p ∈ (cargoSplit req).orders)
    (hempty : tightenedEnd p < p.time_start) :
    ¬ feasible req perm ∧
      buildRouteResponse req none = BuildRouteResponse.error "Route not found" :=
  ⟨infeasible_of_empty_window req p perm hmem hempty, rfl⟩

/-- C5 witness: scenario C discharges the hypotheses concretely. -/
theorem emptyWindow_infeasible_witness :
    (oC' ∈ (cargoSplit scenC).orders ∧ tightenedEnd oC' < oC'.time_start) ∧
    (¬ feasible scenC [oC'] ∧
      buildRouteResponse scenC none = BuildRouteResponse.error "Route not found") :=
  ⟨⟨oC'_mem, oC'_empty_window⟩,
   emptyWindow_infeasible scenC oC' [oC'] oC'_mem oC'_empty_window⟩

/-- C6 (code behaviour at the failing input): every evaluation of the
RawIceTime transit during the solve — i.e. with the local `solution` still
unbound — is the `NameError` outcome `none`, so the solve raises instead of
returning one of the claimed structured outcomes as data. -/
theorem solve_callback_raises (points : List Point) (i j : ℕ) :
    raw_ice_time_callback none points i j = none := rfl

/-- C7 counterexample: for two stops exactly one cost-distance unit apart the
travel duration is 200 minutes, not the ≈2 the claim derives from scaling the
same distance only by the 30 km/h speed (`travel_time` first multiplies the
coordinate distance by 100 to convert it to kilometres). -/
theorem travel_time_scale_cex :
    distance pX pY = 1 ∧ travel_time pX pY = 200 ∧ (200 : ℤ) ≠ 2 :=
  ⟨distance_pX_pY, travel_pX_pY, by norm_num⟩

/-- C7 (amended): for every pair of stops the travel duration is the floor of
the cost objective's straight-line distance scaled by 100 (coordinate units
to km) and then by the assumed speed (60/30 min per km), i.e.
`⌊distance * 200⌋`; a stop 1/100 coordinate units (1 km) from the depot takes
two minutes, and scenario A at that stop is feasible with arrival minute 2
and a raw-class (`ice_kg >= 100`) order. -/
theorem travel_time_scaling :
    (∀ p1 p2 : Point, travel_time p1 p2 = ⌊distance p1 p2 * 200⌋) ∧
    travel_time wA' oA' = 2 ∧
    feasible scenA [oA'] ∧
    orderArrivals (cargoSplit scenA).warehouse [oA'] = [2] ∧
    100 ≤ oA'.ice_kg :=
  ⟨travel_time_distance, travel_wA'_oA', scenA_feasible, arrivals_scenA,
   by norm_num [oA']⟩

/-- C8 counterexample: the assembled response for scenario A is a list of
entries carrying only a stop name and an arrival minute — no cargo kg, no
cargo class, no total — and the infeasible response is the constant error
string carrying no stop name. -/
theorem response_shape_cex :
    buildRouteResponse scenA (some [oA']) =
      BuildRouteResponse.route [⟨"base", 0⟩, ⟨"a1", 2⟩, ⟨"base", 4⟩] ∧
    buildRouteResponse scenE none = BuildRouteResponse.error "Route not found" := by
  refine ⟨?_, rfl⟩
  rw [buildRouteResponse, split_scenA_warehouse]
  unfold routeEntries
  rw [timeCumuls_scenA]
  simp [wA', oA', List.zip]

/-- C8 (amended): a found route is reported as one entry per non-end position
(depot start plus each order) followed by an explicit depot-return entry
holding the end-of-route time, so `perm.length + 2` entries in total ending
at the warehouse's name; when no assignment is found the response is the
constant `{"error": "Route not found"}`. -/
theorem response_shape :
    (∀ (w : Point) (perm : List Point),
      (routeEntries w perm).length = perm.length + 2 ∧
      (routeEntries w perm).getLast? =
        some ⟨w.name, (timeCumuls w perm).getLastD 0⟩) ∧
    (∀ req : RouteRequest,
      buildRouteResponse req none = BuildRouteResponse.error "Route not found") := by
  refine ⟨fun w perm => ⟨?_, ?_⟩, fun req => rfl⟩
  · have h1 : (timeCumuls w perm).length = perm.length + 2 := by
      rw [timeCumuls, List.length_cons, arcCumuls_length]
      simp
    rw [routeEntries, List.length_append, List.length_map, List.length_zip, h1]
    simp
  · rw [routeEntries]
    exact List.getLast?_concat _

/-- C9 counterexample: solving mutates the received instance — scenario A's
order has `raw_ice_kg = 0` on receipt and `raw_ice_kg = -150` after the ice
split that `build_route` performs on the same objects. -/
theorem instance_mutation_cex :
    ((cargoSplit scenA).orders.getD 0 defaultPoint).raw_ice_kg = -150 ∧
    (scenA.orders.getD 0 defaultPoint).raw_ice_kg = 0 ∧
    ((-150 : ℤ) ≠ 0) := by
  refine ⟨?_, ?_, by norm_num⟩
  · rw [split_scenA_orders]
    norm_num [oA']
  · norm_num [scenA, oA]

/-- C9 (amended): the solve rewrites exactly the cargo-accounting fields of
the received instance — the warehouse's `raw_ice_kg`/`container_ice_kg`
become the two class sums and each order's become the negated delta for its
class — while name, coordinates, window and `ice_kg` are unchanged. -/
theorem cargo_split_mutation :
    (∀ req : RouteRequest,
      (cargoSplit req).warehouse.name = req.warehouse.name ∧
      (cargoSplit req).warehouse.lat = req.warehouse.lat ∧
      (cargoSplit req).warehouse.lon = req.warehouse.lon ∧
      (cargoSplit req).warehouse.time_start = req.warehouse.time_start ∧
      (cargoSplit req).warehouse.time_end = req.warehouse.time_end ∧
      (cargoSplit req).warehouse.ice_kg = req.warehouse.ice_kg ∧
      (cargoSplit req).warehouse.raw_ice_kg =
        ((req.orders.filter fun o => 100 ≤ o.ice_kg).map (fun o => o.ice_kg)).sum ∧
      (cargoSplit req).warehouse.container_ice_kg =
        ((req.orders.filter fun o => o.ice_kg < 100).map (fun o => o.ice_kg)).sum ∧
      (cargoSplit req).orders = req.orders.map splitOrder) ∧
    (∀ o : Point, (splitOrder o).name = o.name ∧ (splitOrder o).lat = o.lat ∧
      (splitOrder o).lon = o.lon ∧ (splitOrder o).time_start = o.time_start ∧
      (splitOrder o).time_end = o.time_end ∧ (splitOrder o).ice_kg = o.ice_kg) := by
  refine ⟨fun req => ⟨rfl, rfl, rfl, rfl, rfl, rfl, rfl, rfl, rfl⟩, fun o => ?_⟩
  unfold splitOrder
  split
  · exact ⟨rfl, rfl, rfl, rfl, rfl, rfl⟩
  · exact ⟨rfl, rfl, rfl, rfl, rfl, rfl⟩

/-- C10: the 100 kg threshold decides both cargo accounting and window
tightening consistently and inclusively: `ice_kg >= 100` yields the raw
split and the decay-clamped window end, `ice_kg < 100` the containerized
split and the untouched window end; the split leaves `ice_kg` unchanged, so
the tightening applied to the post-split points agrees with the original. -/
theorem threshold_consistency (o : Point) :
    (100 ≤ o.ice_kg →
      (splitOrder o).raw_ice_kg = -o.ice_kg ∧ (splitOrder o).container_ice_kg = 0 ∧
      tightenedEnd o = min o.time_end RAW_ICE_TIME_LIMIT) ∧
    (o.ice_kg < 100 →
      (splitOrder o).raw_ice_kg = 0 ∧ (splitOrder o).container_ice_kg = -o.ice_kg ∧
      tightenedEnd o = o.time_end) ∧
    tightenedEnd (splitOrder o) = tightenedEnd o ∧
    (splitOrder o).ice_kg = o.ice_kg := by
  refine ⟨fun h => ?_, fun h => ?_, ?_, ?_⟩
  · rw [splitOrder, if_pos h, tightenedEnd, if_pos h]
    exact ⟨rfl, rfl, rfl⟩
  · rw [splitOrder, if_neg (not_le.mpr h), tightenedEnd, if_neg (not_le.mpr h)]
    exact ⟨rfl, rfl, rfl⟩
  · rw [splitOrder]
    split
    · rfl
    · rfl
  · rw [splitOrder]
    split
    · rfl
    · rfl

/-- A boundary stop with exactly 100 kg. -/
def o100 : Point := ⟨"edge", 0, 0, 0, 200, 100, 0, 0⟩

/-- C10 witness: a stop of exactly 100 kg is raw-class in both places. -/
theorem threshold_consistency_witness :
    (100 : ℤ) ≤ o100.ice_kg ∧
    ((splitOrder o100).raw_ice_kg = -o100.ice_kg ∧
      (splitOrder o100).container_ice_kg = 0 ∧
      tightenedEnd o100 = min o100.time_end RAW_ICE_TIME_LIMIT) :=
  ⟨by norm_num [o100], (threshold_consistency o100).1 (by norm_num [o100])⟩

end IceRouting
